import Mathlib

/-
Shallow embedding of the Fyrox deferred-rendering core: the SSAO render pass
(src/fyrox-impl/src/renderer/ssao/mod.rs), the point-light shader wrapper
(src/fyrox-impl/src/renderer/light/point.rs) and the framebuffer abstraction
(src/fyrox-graphics/src/framebuffer.rs).  Machine `f32` values are modelled as
real numbers; fallible backend calls are modelled in the `Except` monad over an
abstract `GraphicsServer`.
-/

namespace Fyrox

/-- Machine `f32` scalars of the source are modelled as real numbers. -/
abbrev F32 := ℝ

/-- Linear interpolation `lerpf(a, b, t) = a + (b - a) * t` from fyrox-core math. -/
def lerpf (a b t : F32) : F32 := a + (b - a) * t

/-- Constant `KERNEL_SIZE` from ssao/mod.rs (kept in sync with the shader define). -/
def KERNEL_SIZE : Nat := 32

/-- Constant `NOISE_SIZE` from ssao/mod.rs (size of the noise texture). -/
def NOISE_SIZE : Nat := 4

/-- Constant `f32::EPSILON = 2^-23`, the argument of `try_normalize` in the kernel loop. -/
noncomputable def f32Epsilon : F32 := 1 / 2 ^ 23

/-- A three-component `f32` vector (`Vector3<f32>` of nalgebra). -/
structure Vector3 where
  x : F32
  y : F32
  z : F32

/-- Euclidean norm of a `Vector3` (nalgebra `norm`). -/
noncomputable def Vector3.norm (v : Vector3) : F32 :=
  Real.sqrt (v.x ^ 2 + v.y ^ 2 + v.z ^ 2)

/-- Componentwise scaling (nalgebra `scale`). -/
def Vector3.scale (v : Vector3) (s : F32) : Vector3 :=
  ⟨v.x * s, v.y * s, v.z * s⟩

/-- Normalization `v / ‖v‖`; the source calls `try_normalize(f32::EPSILON).unwrap()`, whose
success case (norm above the epsilon) is recorded as a hypothesis in the theorems. -/
noncomputable def Vector3.normalize (v : Vector3) : Vector3 :=
  ⟨v.x / v.norm, v.y / v.norm, v.z / v.norm⟩

/-- The scale applied to the `i`-th kernel sample in `ScreenSpaceAmbientOcclusionRenderer::new`:
`lerpf(0.1, 1.0, k * k)` with `k = i / KERNEL_SIZE`. -/
noncomputable def kernelScale (i : Nat) : F32 :=
  lerpf 0.1 1.0 (((i : F32) / (KERNEL_SIZE : F32)) * ((i : F32) / (KERNEL_SIZE : F32)))

/-- The `i`-th SSAO kernel sample: a random vector (x, y in [-1,1), z in [0,1)) normalized to
the unit sphere and then scaled by `kernelScale i`. -/
noncomputable def kernelSample (i : Nat) (r : Vector3) : Vector3 :=
  (r.normalize).scale (kernelScale i)

/-- The kernel generated at construction: `KERNEL_SIZE` samples obtained from the random
stream `rng` (one random triple per sample). -/
noncomputable def ssaoKernel (rng : Nat → Vector3) : List Vector3 :=
  (List.range KERNEL_SIZE).map (fun i => kernelSample i (rng i))

/-- Contract of the three `rng.gen_range` calls in the kernel loop:
x and y are drawn from `[-1, 1)`, z from `[0, 1)`. -/
def RngTripleOk (r : Vector3) : Prop :=
  r.x ∈ Set.Ico (-1 : F32) 1 ∧ r.y ∈ Set.Ico (-1 : F32) 1 ∧ r.z ∈ Set.Ico (0 : F32) 1

/-- Attachment kinds from fyrox-graphics framebuffer.rs. -/
inductive AttachmentKind where
  | Color
  | DepthStencil
  | Depth
deriving DecidableEq

/-- Pixel formats used by the SSAO pass (fyrox-graphics gpu_texture). -/
inductive PixelKind where
  | R32F
  | RGB8
  | RGBA8
deriving DecidableEq

/-- Minification filters (fyrox-graphics gpu_texture). -/
inductive MinificationFilter where
  | Nearest
  | Linear
deriving DecidableEq

/-- Magnification filters (fyrox-graphics gpu_texture). -/
inductive MagnificationFilter where
  | Nearest
  | Linear
deriving DecidableEq

/-- Texture wrap modes (fyrox-graphics gpu_texture). -/
inductive WrapMode where
  | Repeat
  | ClampToEdge
deriving DecidableEq

/-- Texture coordinate axes addressed by `set_wrap` (fyrox-graphics gpu_texture). -/
inductive Coordinate where
  | S
  | T
deriving DecidableEq

/-- Texture kinds (fyrox-graphics gpu_texture); the SSAO pass only creates rectangles. -/
inductive GpuTextureKind where
  | Rectangle (width : Nat) (height : Nat)
  | Cube (size : Nat)
deriving DecidableEq

/-- Buffer kinds (fyrox-graphics buffer). -/
inductive BufferKind where
  | Uniform
  | Vertex
deriving DecidableEq

/-- Buffer usages (fyrox-graphics buffer). -/
inductive BufferUsage where
  | StreamCopy
  | StaticDraw
deriving DecidableEq

/-- Cube map faces addressed by `set_cubemap_face` (fyrox-graphics gpu_texture). -/
inductive CubeMapFace where
  | PositiveX
  | NegativeX
  | PositiveY
  | NegativeY
  | PositiveZ
  | NegativeZ
deriving DecidableEq

/-- An RGBA color with byte channels (fyrox-core color). -/
structure Color where
  r : Nat
  g : Nat
  b : Nat
  a : Nat
deriving DecidableEq

/-- Constructor `Color::from_rgba`. -/
def Color.from_rgba (r g b a : Nat) : Color := ⟨r, g, b, a⟩

/-- A GPU texture handle: the creation parameters recorded by the backend, plus the
per-coordinate wrap modes mutable through `set_wrap`. -/
structure GpuTexture where
  kind : GpuTextureKind
  pixelKind : PixelKind
  minFilter : MinificationFilter
  magFilter : MagnificationFilter
  mipCount : Nat
  data : Option (List Nat)
  wrapS : WrapMode
  wrapT : WrapMode
deriving DecidableEq

instance : Inhabited GpuTexture :=
  ⟨⟨.Rectangle 0 0, .R32F, .Nearest, .Nearest, 1, none, .ClampToEdge, .ClampToEdge⟩⟩

/-- `GpuTexture::set_wrap(coordinate, wrap)`. -/
def GpuTexture.set_wrap (t : GpuTexture) (c : Coordinate) (w : WrapMode) : GpuTexture :=
  match c with
  | .S => { t with wrapS := w }
  | .T => { t with wrapT := w }

/-- A compiled GPU program handle, keyed by the human-readable program name. -/
structure GpuProgram where
  name : String
deriving DecidableEq

/-- A reflected uniform location handle, keyed by the uniform name it was resolved from. -/
structure UniformLocation where
  name : String
deriving DecidableEq

/-- A GPU data buffer handle: the creation parameters recorded by the backend. -/
structure GpuBuffer where
  size : Nat
  kind : BufferKind
  usage : BufferUsage
deriving DecidableEq

/-- A geometry buffer handle (the SSAO pass builds one from the unit XY quad). -/
structure GeometryBuffer where
  usage : BufferUsage
deriving DecidableEq

/-- One framebuffer attachment: a kind paired with the attached texture
(fyrox-graphics framebuffer.rs `Attachment`). -/
structure Attachment where
  kind : AttachmentKind
  texture : GpuTexture
deriving DecidableEq

instance : Inhabited Attachment := ⟨⟨.Color, default⟩⟩

/-- A framebuffer: an ordered sequence of color attachments plus at most one depth-class
attachment, exactly as the `FrameBuffer` trait exposes them (`color_attachments()` returns a
slice, `depth_attachment()` an `Option`). -/
structure FrameBuffer where
  color_attachments : List Attachment
  depth_attachment : Option Attachment
deriving DecidableEq

/-- The texture of the first color attachment (the `color_attachments()[0].texture` access of
`raw_ao_map`). -/
def FrameBuffer.firstColorTexture (fb : FrameBuffer) : GpuTexture :=
  match fb.color_attachments with
  | a :: _ => a.texture
  | [] => default

/-- The single error kind of the rendering framework (fyrox-graphics error.rs). -/
structure FrameworkError where
  message : String
deriving DecidableEq

/-- Modelled from the spec: the `Blur` sub-pass of the SSAO renderer.  Its source file
(src/fyrox-impl/src/renderer/ssao/blur.rs) is not under src/; per the spec it is constructed
with the pass, owns a result texture returned by `result()`, and its `render` consumes the raw
occlusion map. -/
structure Blur where
  result : GpuTexture
deriving DecidableEq

/-- The abstract graphics backend (spec section 6 `GraphicsServer`): every resource creation
and reflection lookup may fail with a `FrameworkError`. -/
structure GraphicsServer where
  create_program : String → String → String → Except FrameworkError GpuProgram
  uniform_location : GpuProgram → String → Except FrameworkError UniformLocation
  uniform_block_index : GpuProgram → String → Except FrameworkError Nat
  create_texture : GpuTextureKind → PixelKind → MinificationFilter → MagnificationFilter →
    Nat → Option (List Nat) → Except FrameworkError GpuTexture
  create_buffer : Nat → BufferKind → BufferUsage → Except FrameworkError GpuBuffer
  create_frame_buffer : Option Attachment → List Attachment → Except FrameworkError FrameBuffer
  make_quad : BufferUsage → Except FrameworkError GeometryBuffer
  make_blur : Nat → Nat → Except FrameworkError Blur

/-- The embedded vertex shader source of the point-light pass (an opaque string). -/
def deferredPointLightVs : String := "deferred_point_light_vs.glsl"

/-- The embedded fragment shader source of the point-light pass (an opaque string). -/
def deferredPointLightFs : String := "deferred_point_light_fs.glsl"

/-- The embedded vertex shader source of the SSAO pass (an opaque string). -/
def ssaoVs : String := "ssao_vs.glsl"

/-- The embedded fragment shader source of the SSAO pass (an opaque string). -/
def ssaoFs : String := "ssao_fs.glsl"

/-- The point-light shader wrapper (src/fyrox-impl/src/renderer/light/point.rs). -/
structure PointLightShader where
  program : GpuProgram
  depth_sampler : UniformLocation
  color_sampler : UniformLocation
  normal_sampler : UniformLocation
  material_sampler : UniformLocation
  point_shadow_texture : UniformLocation
  uniform_buffer_binding : Nat

/-- `PointLightShader::new`: compile the program, then resolve every sampler location and the
uniform block in the order the struct literal evaluates them; every step propagates its error
with `?`. -/
def PointLightShader.new (server : GraphicsServer) : Except FrameworkError PointLightShader := do
  let program ← server.create_program "PointLightShader" deferredPointLightVs deferredPointLightFs
  let depth_sampler ← server.uniform_location program "depthTexture"
  let color_sampler ← server.uniform_location program "colorTexture"
  let normal_sampler ← server.uniform_location program "normalTexture"
  let material_sampler ← server.uniform_location program "materialTexture"
  let point_shadow_texture ← server.uniform_location program "pointShadowTexture"
  let uniform_buffer_binding ← server.uniform_block_index program "Uniforms"
  pure { program := program, depth_sampler := depth_sampler, color_sampler := color_sampler,
         normal_sampler := normal_sampler, material_sampler := material_sampler,
         point_shadow_texture := point_shadow_texture,
         uniform_buffer_binding := uniform_buffer_binding }

namespace Ssao

/-- The private `Shader` struct of ssao/mod.rs. -/
structure Shader where
  program : GpuProgram
  depth_sampler : UniformLocation
  normal_sampler : UniformLocation
  noise_sampler : UniformLocation
  uniform_block_index : Nat

/-- `Shader::new` of ssao/mod.rs: compile the SSAO program and resolve its three samplers and
the `Uniforms` block, in struct-literal evaluation order, each step propagating its error. -/
def Shader.new (server : GraphicsServer) : Except FrameworkError Shader := do
  let program ← server.create_program "SsaoShader" ssaoVs ssaoFs
  let depth_sampler ← server.uniform_location program "depthSampler"
  let normal_sampler ← server.uniform_location program "normalSampler"
  let noise_sampler ← server.uniform_location program "noiseSampler"
  let uniform_block_index ← server.uniform_block_index program "Uniforms"
  pure { program := program, depth_sampler := depth_sampler, normal_sampler := normal_sampler,
         noise_sampler := noise_sampler, uniform_block_index := uniform_block_index }

/-- Constant `RGB_PIXEL_SIZE` from the noise-texture block of ssao/mod.rs. -/
def RGB_PIXEL_SIZE : Nat := 3

/-- Model of `rng.gen_range(0u8..255u8)`: a byte drawn from `[0, 255)`. -/
def genRangeByte (raw : Nat) : Nat := raw % 255

/-- The noise-texture pixel bytes: for each of the `NOISE_SIZE * NOISE_SIZE` pixels the loop
writes a random red byte, a random green byte and a zero blue byte. -/
def noisePixels (rngBytes : Nat → Nat) : List Nat :=
  (List.range (NOISE_SIZE * NOISE_SIZE)).flatMap (fun i =>
    [genRangeByte (rngBytes (2 * i)), genRangeByte (rngBytes (2 * i + 1)), 0])

end Ssao

/-- The SSAO render pass state (ssao/mod.rs `ScreenSpaceAmbientOcclusionRenderer`). -/
structure ScreenSpaceAmbientOcclusionRenderer where
  blur : Blur
  shader : Ssao.Shader
  framebuffer : FrameBuffer
  quad : GeometryBuffer
  uniform_buffer : GpuBuffer
  width : Int
  height : Int
  noise : GpuTexture
  kernel : List Vector3
  radius : F32

/-- The internal target width of the SSAO pass: half the frame width, clamped below to 1
(the `let width` line of `new`). -/
def ssaoTargetWidth (frame_width : Nat) : Nat := (frame_width / 2).max 1

/-- The internal target height of the SSAO pass: half the frame height, clamped below to 1
(the `let height` line of `new`). -/
def ssaoTargetHeight (frame_height : Nat) : Nat := (frame_height / 2).max 1

/-- `ScreenSpaceAmbientOcclusionRenderer::new`: clamp the half resolution, create the occlusion
texture, then build the struct, whose fields are evaluated in literal order — uniform buffer,
blur sub-pass, shader, framebuffer, quad, width, height, kernel, noise texture (with wrap
modes set to repeat on S and T), radius 0.5.  Every fallible step propagates its error. -/
noncomputable def ScreenSpaceAmbientOcclusionRenderer.new (server : GraphicsServer)
    (frame_width frame_height : Nat) (rngTriples : Nat → Vector3) (rngBytes : Nat → Nat) :
    Except FrameworkError ScreenSpaceAmbientOcclusionRenderer := do
  let occlusion ← server.create_texture
    (.Rectangle (ssaoTargetWidth frame_width) (ssaoTargetHeight frame_height))
    .R32F .Nearest .Nearest 1 none
  let uniform_buffer ← server.create_buffer 1024 .Uniform .StreamCopy
  let blur ← server.make_blur (ssaoTargetWidth frame_width) (ssaoTargetHeight frame_height)
  let shader ← Ssao.Shader.new server
  let framebuffer ← server.create_frame_buffer none [⟨.Color, occlusion⟩]
  let quad ← server.make_quad .StaticDraw
  let noiseTexture ← server.create_texture (.Rectangle NOISE_SIZE NOISE_SIZE) .RGB8 .Nearest
    .Nearest 1 (some (Ssao.noisePixels rngBytes))
  pure { blur := blur, shader := shader, framebuffer := framebuffer, quad := quad,
         uniform_buffer := uniform_buffer,
         width := ((ssaoTargetWidth frame_width : Nat) : Int),
         height := ((ssaoTargetHeight frame_height : Nat) : Int),
         noise := (noiseTexture.set_wrap .S .Repeat).set_wrap .T .Repeat,
         kernel := ssaoKernel rngTriples, radius := 0.5 }

/-- `ScreenSpaceAmbientOcclusionRenderer::set_radius`: store the absolute value. -/
def ScreenSpaceAmbientOcclusionRenderer.set_radius
    (self : ScreenSpaceAmbientOcclusionRenderer) (radius : F32) :
    ScreenSpaceAmbientOcclusionRenderer :=
  { self with radius := |radius| }

/-- `ScreenSpaceAmbientOcclusionRenderer::raw_ao_map`: the pass's own color attachment. -/
def ScreenSpaceAmbientOcclusionRenderer.raw_ao_map
    (self : ScreenSpaceAmbientOcclusionRenderer) : GpuTexture :=
  self.framebuffer.firstColorTexture

/-- `ScreenSpaceAmbientOcclusionRenderer::ao_map`: the blurred result texture. -/
def ScreenSpaceAmbientOcclusionRenderer.ao_map
    (self : ScreenSpaceAmbientOcclusionRenderer) : GpuTexture :=
  self.blur.result

/-- An integer rectangle (fyrox-core `Rect<i32>`), used for viewports. -/
structure Rect where
  x : Int
  y : Int
  w : Int
  h : Int
deriving DecidableEq

/-- A 4x4 `f32` matrix, embedded deeply as the expression the source builds: the SSAO pass
only ever forms an orthographic matrix times a non-uniform scaling, an external projection
matrix, and its `try_inverse().unwrap_or_default()`. -/
inductive Matrix4 where
  | new_orthographic (left right bottom top znear zfar : F32)
  | new_nonuniform_scaling (x y z : F32)
  | mul (a b : Matrix4)
  | inverseOrDefault (m : Matrix4)
  | external (id : Nat)

/-- An abstract 3x3 view matrix handle; the pass forwards it into the uniform buffer
without inspecting it. -/
structure Matrix3 where
  tag : Nat
deriving DecidableEq

/-- The `frame_matrix` computed in `render`: orthographic projection of the viewport times a
non-uniform scaling by the viewport extents. -/
def frameMatrix (w h : F32) : Matrix4 :=
  .mul (.new_orthographic 0 w h 0 (-1) 1) (.new_nonuniform_scaling w h 0)

/-- A value serialized into a uniform staging buffer by one `push`/`push_slice` call. -/
inductive UniformValue where
  | mat4 (m : Matrix4)
  | mat3 (m : Matrix3)
  | vec2 (xv yv : F32)
  | vec3Array (vs : List Vector3)
  | float (x : F32)

/-- Modelled from the spec: `StaticUniformBuffer<N>` (the fyrox-graphics uniform module is not
under src/) — a fixed-capacity staging buffer filled by an ordered sequence of `push` and
`push_slice` calls; `finish` yields the serialized contents. -/
structure StaticUniformBuffer where
  capacity : Nat
  items : List UniformValue

/-- Fresh empty staging buffer of the given byte capacity. -/
def StaticUniformBuffer.new (capacity : Nat) : StaticUniformBuffer :=
  ⟨capacity, []⟩

/-- Append one value to the staging buffer. -/
def StaticUniformBuffer.push (b : StaticUniformBuffer) (v : UniformValue) :
    StaticUniformBuffer :=
  { b with items := b.items ++ [v] }

/-- Append a slice of vectors to the staging buffer. -/
def StaticUniformBuffer.push_slice (b : StaticUniformBuffer) (vs : List Vector3) :
    StaticUniformBuffer :=
  b.push (.vec3Array vs)

/-- Read out the finished serialized contents. -/
def StaticUniformBuffer.finish (b : StaticUniformBuffer) : List UniformValue :=
  b.items

/-- Color write mask (fyrox-graphics `ColorMask`); the default enables every channel. -/
structure ColorMask where
  red : Bool := true
  green : Bool := true
  blue : Bool := true
  alpha : Bool := true
deriving DecidableEq

/-- Depth/stencil comparison functions (only a representative subset is needed). -/
inductive CompareFunc where
  | Less
  | LessOrEqual
  | Always
deriving DecidableEq

/-- Stencil test configuration (payload irrelevant to the claims). -/
structure StencilFunc where
  func : CompareFunc := .Always
deriving DecidableEq

/-- Stencil operation configuration (payload irrelevant to the claims). -/
structure StencilOp where
  writeMask : Nat := 0
deriving DecidableEq

/-- Blend configuration (payload irrelevant to the claims). -/
structure BlendParameters where
  modeTag : Nat := 0
deriving DecidableEq

/-- Face culling selection. -/
inductive CullFace where
  | Back
  | Front
deriving DecidableEq

/-- Scissor box restriction. -/
structure ScissorBox where
  x : Int
  y : Int
  w : Int
  h : Int
deriving DecidableEq

/-- `DrawParameters` (fyrox-graphics): the explicit pipeline state of one draw call. -/
structure DrawParameters where
  cull_face : Option CullFace
  color_write : ColorMask
  depth_write : Bool
  stencil_test : Option StencilFunc
  depth_test : Option CompareFunc
  blend : Option BlendParameters
  stencil_op : StencilOp
  scissor_box : Option ScissorBox
deriving DecidableEq

/-- The `DrawParameters` literal of the SSAO draw call (ssao/mod.rs `render`). -/
def ssaoDrawParameters : DrawParameters :=
  { cull_face := none, color_write := {}, depth_write := false, stencil_test := none,
    depth_test := none, blend := none, stencil_op := {}, scissor_box := none }

/-- One resource binding of a bind group, as the SSAO pass builds them: a texture resolved
through a reflected sampler uniform, or a uniform buffer bound at a block index. -/
inductive ResourceBinding where
  | texture (t : GpuTexture) (loc : UniformLocation)
  | buffer (b : GpuBuffer) (shader_location : Nat)

/-- Element range of a draw (fyrox-graphics `ElementRange`). -/
inductive ElementRange where
  | Full
  | Specific (base : Nat) (count : Nat)
deriving DecidableEq

/-- The G-buffer inputs consumed by the SSAO pass: depth and world-space normals. -/
structure GBuffer where
  depth : GpuTexture
  normal_texture : GpuTexture
deriving DecidableEq

/-- Statistics of one draw call (fyrox-graphics `DrawCallStatistics`). -/
structure DrawCallStatistics where
  triangles : Nat
deriving DecidableEq

/-- Accumulated statistics of one render pass, combined additively with `+=`. -/
structure RenderPassStatistics where
  draw_calls : Nat := 0
  triangles_rendered : Nat := 0
deriving DecidableEq

/-- The `stats += draw_call_statistics` accumulation. -/
def RenderPassStatistics.addDraw (s : RenderPassStatistics) (d : DrawCallStatistics) :
    RenderPassStatistics :=
  { draw_calls := s.draw_calls + 1, triangles_rendered := s.triangles_rendered + d.triangles }

/-- One observable backend effect of `render`, in program order. -/
inductive RenderOp where
  | clear (viewport : Rect) (color : Option Color) (depth : Option F32) (stencil : Option Int)
  | bufferWrite (buffer : GpuBuffer) (data : List UniformValue)
  | draw (viewport : Rect) (params : DrawParameters) (bindings : List ResourceBinding)
      (range : ElementRange)
  | blurPass (input : GpuTexture)

/-- The ordered uniform serialization of ssao/mod.rs `render`: frame matrix, inverse projection,
projection, kernel slice, noise scale, view matrix, radius, pushed into a 1024-byte
`StaticUniformBuffer`. -/
noncomputable def ssaoUniformBuffer (self : ScreenSpaceAmbientOcclusionRenderer)
    (projection_matrix : Matrix4) (view_matrix : Matrix3) : StaticUniformBuffer :=
  let viewport : Rect := ⟨0, 0, self.width, self.height⟩
  let frame_matrix := frameMatrix ((viewport.w : F32)) ((viewport.h : F32))
  let noise_scale_x : F32 := (self.width : F32) / (NOISE_SIZE : F32)
  let noise_scale_y : F32 := (self.height : F32) / (NOISE_SIZE : F32)
  ((((((StaticUniformBuffer.new 1024).push
      (.mat4 frame_matrix)).push
      (.mat4 (.inverseOrDefault projection_matrix))).push
      (.mat4 projection_matrix)).push_slice
      self.kernel).push
      (.vec2 noise_scale_x noise_scale_y)).push
      (.mat3 view_matrix) |>.push
      (.float self.radius)

/-- `ScreenSpaceAmbientOcclusionRenderer::render`, as a trace-producing function: it clears the
occlusion target, serializes and writes the per-frame uniforms, issues the full-screen quad
draw, and delegates to the blur sub-pass on the raw occlusion map.  The outcomes of the three
fallible backend steps (uniform-buffer write, draw, blur render) are passed in as `Except`
values; the function returns the ordered list of backend operations performed together with
the propagated result. -/
noncomputable def ScreenSpaceAmbientOcclusionRenderer.render
    (self : ScreenSpaceAmbientOcclusionRenderer) (gbuffer : GBuffer)
    (projection_matrix : Matrix4) (view_matrix : Matrix3)
    (writeResult : Except FrameworkError Unit)
    (drawResult : Except FrameworkError DrawCallStatistics)
    (blurResult : Except FrameworkError Unit) :
    List RenderOp × Except FrameworkError RenderPassStatistics :=
  let stats : RenderPassStatistics := {}
  let viewport : Rect := ⟨0, 0, self.width, self.height⟩
  let clearOp := RenderOp.clear viewport (some (Color.from_rgba 0 0 0 0)) (some 1.0) none
  let uniforms := ssaoUniformBuffer self projection_matrix view_matrix
  match writeResult with
  | .error e => ([clearOp], .error e)
  | .ok _ =>
    let writeOp := RenderOp.bufferWrite self.uniform_buffer uniforms.finish
    let bindings : List ResourceBinding :=
      [.texture gbuffer.depth self.shader.depth_sampler,
       .texture gbuffer.normal_texture self.shader.normal_sampler,
       .texture self.noise self.shader.noise_sampler,
       .buffer self.uniform_buffer self.shader.uniform_block_index]
    match drawResult with
    | .error e => ([clearOp, writeOp], .error e)
    | .ok dstats =>
      let drawOp := RenderOp.draw viewport ssaoDrawParameters bindings .Full
      match blurResult with
      | .error e => ([clearOp, writeOp, drawOp], .error e)
      | .ok _ =>
        ([clearOp, writeOp, drawOp, .blurPass self.raw_ao_map], .ok (stats.addDraw dstats))

/-- An integer pixel position of a render target. -/
structure Pos where
  x : Int
  y : Int
deriving DecidableEq

/-- Membership of a pixel in a rectangle (used to restrict clears to a viewport). -/
def Rect.contains (r : Rect) (p : Pos) : Bool :=
  decide (r.x ≤ p.x) && decide (p.x < r.x + r.w) &&
  decide (r.y ≤ p.y) && decide (p.y < r.y + r.h)

/-- The pixel contents of a framebuffer's channels: color, depth and stencil planes. -/
structure FrameBufferContents where
  colorAt : Pos → Color
  depthAt : Pos → F32
  stencilAt : Pos → Int

/-- Modelled from the spec: the effect of `FrameBuffer::clear` on one channel (the GL backend
implementation is not under src/) — the channel is overwritten with the given value inside the
viewport only when the optional value is present, and is untouched elsewhere. -/
def clearChannel {α : Type} (viewport : Rect) (value : Option α) (old : Pos → α) : Pos → α :=
  fun p =>
    match value with
    | some v => if viewport.contains p then v else old p
    | none => old p

/-- Modelled from the spec: `FrameBuffer::clear(viewport, color, depth, stencil)` applied to
pixel contents — each channel is cleared only if its optional value is present, restricted to
the viewport. -/
def FrameBufferContents.clear (fb : FrameBufferContents) (viewport : Rect)
    (color : Option Color) (depth : Option F32) (stencil : Option Int) :
    FrameBufferContents :=
  { colorAt := clearChannel viewport color fb.colorAt,
    depthAt := clearChannel viewport depth fb.depthAt,
    stencilAt := clearChannel viewport stencil fb.stencilAt }

/-- Modelled from the spec: the output masking of one rasterized draw — the fragment outputs
reach the color plane only through the `color_write` mask, reach the depth plane only when
`depth_write` is set, and reach the stencil plane only when a stencil test is active
(`DrawParameters` fully determines the pipeline state of a draw). -/
def FrameBufferContents.applyDraw (fb : FrameBufferContents) (params : DrawParameters)
    (shadedColor : Pos → Color) (shadedDepth : Pos → F32) (shadedStencil : Pos → Int) :
    FrameBufferContents :=
  { colorAt := fun p =>
      if params.color_write.red || params.color_write.green ||
         params.color_write.blue || params.color_write.alpha
      then shadedColor p else fb.colorAt p,
    depthAt := fun p => if params.depth_write then shadedDepth p else fb.depthAt p,
    stencilAt := fun p => if params.stencil_test.isSome then shadedStencil p else fb.stencilAt p }

/-- One operation of the `FrameBuffer` trait that runs against an existing framebuffer. -/
inductive FbOp where
  | clearOp (viewport : Rect) (color : Option Color) (depth : Option F32)
      (stencil : Option Int)
  | setCubemapFace (attachment_index : Nat) (face : CubeMapFace)
  | drawOp (params : DrawParameters) (shadedColor : Pos → Color) (shadedDepth : Pos → F32)
      (shadedStencil : Pos → Int)
  | blitFrom (copy_color copy_depth copy_stencil : Bool) (src : FrameBufferContents)

/-- A live framebuffer: its attachment lists, its pixel contents, and the cubemap face
currently selected for each color attachment index. -/
structure FrameBufferState where
  fb : FrameBuffer
  contents : FrameBufferContents
  selectedFaces : Nat → Option CubeMapFace

/-- Modelled from the spec: the effect of each `FrameBuffer` trait operation on a live
framebuffer (the GL backend implementation is not under src/) — `clear`, `draw` and `blit_to`
rewrite pixel contents, `set_cubemap_face` redirects the active face of a color attachment;
no operation of the trait adds, removes or reorders attachments. -/
def FrameBufferState.apply (s : FrameBufferState) (op : FbOp) : FrameBufferState :=
  match op with
  | .clearOp viewport color depth stencil =>
    { s with contents := s.contents.clear viewport color depth stencil }
  | .setCubemapFace i face =>
    { s with selectedFaces := fun j => if j = i then some face else s.selectedFaces j }
  | .drawOp params sc sd ss =>
    { s with contents := s.contents.applyDraw params sc sd ss }
  | .blitFrom cc cd cs src =>
    { s with contents :=
        { colorAt := if cc then src.colorAt else s.contents.colorAt,
          depthAt := if cd then src.depthAt else s.contents.depthAt,
          stencilAt := if cs then src.stencilAt else s.contents.stencilAt } }

/-- The attachments of a framebuffer, color attachments first, then the depth-class slot. -/
def FrameBuffer.attachments (fb : FrameBuffer) : List Attachment :=
  fb.color_attachments ++ fb.depth_attachment.toList

/-- Whether an attachment is depth-class (depth or depth-stencil). -/
def Attachment.depthClass (a : Attachment) : Bool :=
  a.kind == .DepthStencil || a.kind == .Depth

/-- A server creates textures as requested: on success, the returned texture carries exactly
the requested kind, format, filters, mip count and initial data. -/
def CreatesRequestedTextures (s : GraphicsServer) : Prop :=
  ∀ kind pk mnf mgf mips data t,
    s.create_texture kind pk mnf mgf mips data = .ok t →
    t.kind = kind ∧ t.pixelKind = pk ∧ t.minFilter = mnf ∧ t.magFilter = mgf ∧
    t.mipCount = mips ∧ t.data = data

/-- A server creates framebuffers as requested: on success, the returned framebuffer carries
exactly the requested color attachments and depth-class slot. -/
def CreatesRequestedFrameBuffers (s : GraphicsServer) : Prop :=
  ∀ d cs fb, s.create_frame_buffer d cs = .ok fb →
    fb.color_attachments = cs ∧ fb.depth_attachment = d

/-- Modelled from the spec: a canonical always-succeeding backend that fulfils every request
literally — used to evaluate the constructors on concrete inputs. -/
def modelServer : GraphicsServer where
  create_program := fun nm _ _ => .ok ⟨nm⟩
  uniform_location := fun _ nm => .ok ⟨nm⟩
  uniform_block_index := fun _ _ => .ok 0
  create_texture := fun k pk mnf mgf mc d => .ok ⟨k, pk, mnf, mgf, mc, d, .ClampToEdge, .ClampToEdge⟩
  create_buffer := fun sz k u => .ok ⟨sz, k, u⟩
  create_frame_buffer := fun d cs => .ok ⟨cs, d⟩
  make_quad := fun u => .ok ⟨u⟩
  make_blur := fun w h =>
    .ok ⟨⟨.Rectangle w h, .R32F, .Nearest, .Nearest, 1, none, .ClampToEdge, .ClampToEdge⟩⟩

/-- A constant random stream of z-axis triples (z = 1/2, inside the half-open rng ranges),
for concrete evaluation. -/
noncomputable def rngTriplesHalfZ : Nat → Vector3 := fun _ => ⟨0, 0, 0.5⟩

/-- A constant zero byte stream, for concrete evaluation. -/
def rngBytesZero : Nat → Nat := fun _ => 0

/-- The point-light shader obtained from the model server. -/
def modelPointLightShader : PointLightShader :=
  { program := ⟨"PointLightShader"⟩, depth_sampler := ⟨"depthTexture"⟩,
    color_sampler := ⟨"colorTexture"⟩, normal_sampler := ⟨"normalTexture"⟩,
    material_sampler := ⟨"materialTexture"⟩, point_shadow_texture := ⟨"pointShadowTexture"⟩,
    uniform_buffer_binding := 0 }

/-- The SSAO renderer obtained from the model server at a 64x64 frame. -/
noncomputable def modelSsaoRenderer : ScreenSpaceAmbientOcclusionRenderer :=
  match ScreenSpaceAmbientOcclusionRenderer.new modelServer 64 64 rngTriplesHalfZ rngBytesZero with
  | .ok st => st
  | .error _ =>
    { blur := ⟨default⟩, shader := ⟨⟨""⟩, ⟨""⟩, ⟨""⟩, ⟨""⟩, 0⟩, framebuffer := ⟨[], none⟩,
      quad := ⟨.StaticDraw⟩, uniform_buffer := ⟨0, .Uniform, .StreamCopy⟩, width := 0,
      height := 0, noise := default, kernel := [], radius := 0 }

/-- Whether a render operation is a draw call. -/
def RenderOp.isDraw : RenderOp → Bool
  | .draw _ _ _ _ => true
  | _ => false

/-- A backend whose program compilation always fails, for concrete evaluation of the
error-propagation contracts. -/
def failingProgramServer : GraphicsServer :=
  { modelServer with create_program := fun _ _ _ => .error ⟨"compile error"⟩ }

section Lemmas

lemma except_bind_ok {α β : Type} (a : α) (f : α → Except FrameworkError β) :
    (Except.ok a >>= f) = f a := rfl

lemma except_bind_error {α β : Type} (e : FrameworkError) (f : α → Except FrameworkError β) :
    ((Except.error e : Except FrameworkError α) >>= f) = .error e := rfl

lemma f32Epsilon_pos : 0 < f32Epsilon := by
  unfold f32Epsilon
  positivity

lemma genRangeByte_lt (raw : Nat) : Ssao.genRangeByte raw < 255 :=
  Nat.mod_lt _ (by norm_num)

lemma kernelScale_eq (i : Nat) :
    kernelScale i = 0.1 + 0.9 * (((i : F32) / 32) * ((i : F32) / 32)) := by
  unfold kernelScale lerpf KERNEL_SIZE
  norm_num

lemma kernelScale_nonneg (i : Nat) : 0 ≤ kernelScale i := by
  rw [kernelScale_eq]
  positivity

lemma kernelScale_le_one {i : Nat} (hi : i ≤ KERNEL_SIZE) : kernelScale i ≤ 1 := by
  rw [kernelScale_eq]
  have h1 : (i : F32) ≤ 32 := by
    have h := (Nat.cast_le (α := ℝ)).mpr hi
    simpa [KERNEL_SIZE] using h
  have h2 : (0 : F32) ≤ (i : F32) := Nat.cast_nonneg i
  have h3 : (i : F32) / 32 ≤ 1 := by
    rw [div_le_one (by norm_num)]
    exact h1
  have h4 : (0 : F32) ≤ (i : F32) / 32 := by positivity
  nlinarith

lemma kernelScale_lt {i j : Nat} (hij : i < j) : kernelScale i < kernelScale j := by
  rw [kernelScale_eq, kernelScale_eq]
  have hc : (i : F32) < (j : F32) := by exact_mod_cast hij
  have h0 : (0 : F32) ≤ (i : F32) := Nat.cast_nonneg i
  have h1 : (i : F32) / 32 < (j : F32) / 32 := by
    apply div_lt_div_of_pos_right hc
    norm_num
  have h2 : (0 : F32) ≤ (i : F32) / 32 := by positivity
  nlinarith

lemma normalize_scale_norm (v : Vector3) (s : F32) (hv : 0 < v.norm) (hs : 0 ≤ s) :
    ((v.normalize).scale s).norm = s := by
  have hS : 0 < v.x ^ 2 + v.y ^ 2 + v.z ^ 2 := Real.sqrt_pos.mp hv
  have hsq : Real.sqrt (v.x ^ 2 + v.y ^ 2 + v.z ^ 2) ^ 2 = v.x ^ 2 + v.y ^ 2 + v.z ^ 2 :=
    Real.sq_sqrt hS.le
  have hne : Real.sqrt (v.x ^ 2 + v.y ^ 2 + v.z ^ 2) ≠ 0 := ne_of_gt hv
  show Real.sqrt ((v.x / v.norm * s) ^ 2 + (v.y / v.norm * s) ^ 2 + (v.z / v.norm * s) ^ 2) = s
  unfold Vector3.norm
  have key : (v.x / Real.sqrt (v.x ^ 2 + v.y ^ 2 + v.z ^ 2) * s) ^ 2 +
      (v.y / Real.sqrt (v.x ^ 2 + v.y ^ 2 + v.z ^ 2) * s) ^ 2 +
      (v.z / Real.sqrt (v.x ^ 2 + v.y ^ 2 + v.z ^ 2) * s) ^ 2 = s ^ 2 := by
    have hsum : (v.x / Real.sqrt (v.x ^ 2 + v.y ^ 2 + v.z ^ 2) * s) ^ 2 +
        (v.y / Real.sqrt (v.x ^ 2 + v.y ^ 2 + v.z ^ 2) * s) ^ 2 +
        (v.z / Real.sqrt (v.x ^ 2 + v.y ^ 2 + v.z ^ 2) * s) ^ 2 =
        (v.x ^ 2 + v.y ^ 2 + v.z ^ 2) / Real.sqrt (v.x ^ 2 + v.y ^ 2 + v.z ^ 2) ^ 2 * s ^ 2 := by
      field_simp
      ring
    rw [hsum, hsq, div_self hS.ne', one_mul]
  rw [key, Real.sqrt_sq hs]

lemma normalize_scale_z_nonneg (v : Vector3) (s : F32) (hv : 0 < v.norm) (hz : 0 ≤ v.z)
    (hs : 0 ≤ s) : 0 ≤ ((v.normalize).scale s).z := by
  show 0 ≤ v.z / v.norm * s
  exact mul_nonneg (div_nonneg hz hv.le) hs

lemma ssao_new_ok (server : GraphicsServer) (fw fh : Nat) (rT : Nat → Vector3)
    (rB : Nat → Nat) (st : ScreenSpaceAmbientOcclusionRenderer)
    (h : ScreenSpaceAmbientOcclusionRenderer.new server fw fh rT rB = .ok st) :
    ∃ occlusion noiseTexture : GpuTexture,
      server.create_texture (.Rectangle (ssaoTargetWidth fw) (ssaoTargetHeight fh)) .R32F
          .Nearest .Nearest 1 none = .ok occlusion ∧
      server.create_buffer 1024 .Uniform .StreamCopy = .ok st.uniform_buffer ∧
      server.make_blur (ssaoTargetWidth fw) (ssaoTargetHeight fh) = .ok st.blur ∧
      Ssao.Shader.new server = .ok st.shader ∧
      server.create_frame_buffer none [⟨.Color, occlusion⟩] = .ok st.framebuffer ∧
      server.make_quad .StaticDraw = .ok st.quad ∧
      server.create_texture (.Rectangle NOISE_SIZE NOISE_SIZE) .RGB8 .Nearest .Nearest 1
          (some (Ssao.noisePixels rB)) = .ok noiseTexture ∧
      st.noise = (noiseTexture.set_wrap .S .Repeat).set_wrap .T .Repeat ∧
      st.width = (ssaoTargetWidth fw : Int) ∧
      st.height = (ssaoTargetHeight fh : Int) ∧
      st.kernel = ssaoKernel rT ∧
      st.radius = 0.5 := by
  unfold ScreenSpaceAmbientOcclusionRenderer.new at h
  cases h1 : server.create_texture
      (GpuTextureKind.Rectangle (ssaoTargetWidth fw) (ssaoTargetHeight fh))
      PixelKind.R32F MinificationFilter.Nearest MagnificationFilter.Nearest 1 none with
  | error e => simp only [h1, except_bind_error] at h; exact Except.noConfusion h
  | ok occlusion =>
    simp only [h1, except_bind_ok] at h
    cases h2 : server.create_buffer 1024 BufferKind.Uniform BufferUsage.StreamCopy with
    | error e => simp only [h2, except_bind_error] at h; exact Except.noConfusion h
    | ok ub =>
      simp only [h2, except_bind_ok] at h
      cases h3 : server.make_blur (ssaoTargetWidth fw) (ssaoTargetHeight fh) with
      | error e => simp only [h3, except_bind_error] at h; exact Except.noConfusion h
      | ok blur =>
        simp only [h3, except_bind_ok] at h
        cases h4 : Ssao.Shader.new server with
        | error e => simp only [h4, except_bind_error] at h; exact Except.noConfusion h
        | ok sh =>
          simp only [h4, except_bind_ok] at h
          cases h5 : server.create_frame_buffer none [⟨AttachmentKind.Color, occlusion⟩] with
          | error e => simp only [h5, except_bind_error] at h; exact Except.noConfusion h
          | ok fb =>
            simp only [h5, except_bind_ok] at h
            cases h6 : server.make_quad BufferUsage.StaticDraw with
            | error e => simp only [h6, except_bind_error] at h; exact Except.noConfusion h
            | ok quad =>
              simp only [h6, except_bind_ok] at h
              cases h7 : server.create_texture (GpuTextureKind.Rectangle NOISE_SIZE NOISE_SIZE)
                  PixelKind.RGB8 MinificationFilter.Nearest MagnificationFilter.Nearest 1
                  (some (Ssao.noisePixels rB)) with
              | error e => simp only [h7, except_bind_error] at h; exact Except.noConfusion h
              | ok nt =>
                simp only [h7, except_bind_ok, pure, Except.pure] at h
                injection h with h
                subst h
                exact ⟨occlusion, nt, rfl, rfl, rfl, rfl, h5, rfl, rfl, rfl, rfl, rfl, rfl, rfl⟩

lemma pointLightShader_new_ok (server : GraphicsServer) (sh : PointLightShader)
    (h : PointLightShader.new server = .ok sh) :
    server.create_program "PointLightShader" deferredPointLightVs deferredPointLightFs
        = .ok sh.program ∧
    server.uniform_location sh.program "depthTexture" = .ok sh.depth_sampler ∧
    server.uniform_location sh.program "colorTexture" = .ok sh.color_sampler ∧
    server.uniform_location sh.program "normalTexture" = .ok sh.normal_sampler ∧
    server.uniform_location sh.program "materialTexture" = .ok sh.material_sampler ∧
    server.uniform_location sh.program "pointShadowTexture" = .ok sh.point_shadow_texture ∧
    server.uniform_block_index sh.program "Uniforms" = .ok sh.uniform_buffer_binding := by
  unfold PointLightShader.new at h
  cases h1 : server.create_program "PointLightShader" deferredPointLightVs
      deferredPointLightFs with
  | error e => simp only [h1, except_bind_error] at h; exact Except.noConfusion h
  | ok p =>
    simp only [h1, except_bind_ok] at h
    cases h2 : server.uniform_location p "depthTexture" with
    | error e => simp only [h2, except_bind_error] at h; exact Except.noConfusion h
    | ok l1 =>
      simp only [h2, except_bind_ok] at h
      cases h3 : server.uniform_location p "colorTexture" with
      | error e => simp only [h3, except_bind_error] at h; exact Except.noConfusion h
      | ok l2 =>
        simp only [h3, except_bind_ok] at h
        cases h4 : server.uniform_location p "normalTexture" with
        | error e => simp only [h4, except_bind_error] at h; exact Except.noConfusion h
        | ok l3 =>
          simp only [h4, except_bind_ok] at h
          cases h5 : server.uniform_location p "materialTexture" with
          | error e => simp only [h5, except_bind_error] at h; exact Except.noConfusion h
          | ok l4 =>
            simp only [h5, except_bind_ok] at h
            cases h6 : server.uniform_location p "pointShadowTexture" with
            | error e => simp only [h6, except_bind_error] at h; exact Except.noConfusion h
            | ok l5 =>
              simp only [h6, except_bind_ok] at h
              cases h7 : server.uniform_block_index p "Uniforms" with
              | error e => simp only [h7, except_bind_error] at h; exact Except.noConfusion h
              | ok b =>
                simp only [h7, except_bind_ok, pure, Except.pure] at h
                injection h with h
                subst h
                exact ⟨rfl, h2, h3, h4, h5, h6, h7⟩

lemma ssaoShader_new_ok (server : GraphicsServer) (sh : Ssao.Shader)
    (h : Ssao.Shader.new server = .ok sh) :
    server.create_program "SsaoShader" ssaoVs ssaoFs = .ok sh.program ∧
    server.uniform_location sh.program "depthSampler" = .ok sh.depth_sampler ∧
    server.uniform_location sh.program "normalSampler" = .ok sh.normal_sampler ∧
    server.uniform_location sh.program "noiseSampler" = .ok sh.noise_sampler ∧
    server.uniform_block_index sh.program "Uniforms" = .ok sh.uniform_block_index := by
  unfold Ssao.Shader.new at h
  cases h1 : server.create_program "SsaoShader" ssaoVs ssaoFs with
  | error e => simp only [h1, except_bind_error] at h; exact Except.noConfusion h
  | ok p =>
    simp only [h1, except_bind_ok] at h
    cases h2 : server.uniform_location p "depthSampler" with
    | error e => simp only [h2, except_bind_error] at h; exact Except.noConfusion h
    | ok l1 =>
      simp only [h2, except_bind_ok] at h
      cases h3 : server.uniform_location p "normalSampler" with
      | error e => simp only [h3, except_bind_error] at h; exact Except.noConfusion h
      | ok l2 =>
        simp only [h3, except_bind_ok] at h
        cases h4 : server.uniform_location p "noiseSampler" with
        | error e => simp only [h4, except_bind_error] at h; exact Except.noConfusion h
        | ok l3 =>
          simp only [h4, except_bind_ok] at h
          cases h5 : server.uniform_block_index p "Uniforms" with
          | error e => simp only [h5, except_bind_error] at h; exact Except.noConfusion h
          | ok b =>
            simp only [h5, except_bind_ok, pure, Except.pure] at h
            injection h with h
            subst h
            exact ⟨rfl, h2, h3, h4, h5⟩

lemma modelServer_textures : CreatesRequestedTextures modelServer := by
  intro kind pk mnf mgf mips data t h
  have h' : GpuTexture.mk kind pk mnf mgf mips data .ClampToEdge .ClampToEdge = t := by
    injection h
  subst h'
  exact ⟨rfl, rfl, rfl, rfl, rfl, rfl⟩

lemma modelServer_framebuffers : CreatesRequestedFrameBuffers modelServer := by
  intro d cs fb h
  have h' : FrameBuffer.mk cs d = fb := by
    injection h
  subst h'
  exact ⟨rfl, rfl⟩

lemma modelSsao_new_eq :
    ScreenSpaceAmbientOcclusionRenderer.new modelServer 64 64 rngTriplesHalfZ rngBytesZero
      = .ok modelSsaoRenderer := rfl

end Lemmas

/-- C1: the SSAO sample kernel generated at construction has exactly `KERNEL_SIZE = 32`
three-dimensional samples; under the rng range contract and the `try_normalize` success
condition, every sample has a nonnegative Z component and magnitude at most 1 (it lies in the
unit hemisphere), each sample's magnitude equals its index's radius scale, and the radius
scale is strictly increasing in the sample index (a non-uniform distribution denser near the
origin). -/
theorem ssao_kernel_unit_hemisphere (rng : Nat → Vector3)
    (hok : ∀ i, RngTripleOk (rng i)) (hnz : ∀ i, f32Epsilon < (rng i).norm) :
    (ssaoKernel rng).length = KERNEL_SIZE ∧
    (∀ v ∈ ssaoKernel rng, 0 ≤ v.z ∧ v.norm ≤ 1) ∧
    (∀ i, (kernelSample i (rng i)).norm = kernelScale i) ∧
    (∀ i j, i < j → kernelScale i < kernelScale j) := by
  have hpos : ∀ i, 0 < (rng i).norm := fun i => lt_trans f32Epsilon_pos (hnz i)
  refine ⟨by simp [ssaoKernel], ?_, ?_, fun i j hij => kernelScale_lt hij⟩
  · intro v hv
    simp only [ssaoKernel] at hv
    obtain ⟨i, hi, rfl⟩ := List.mem_map.mp hv
    have hi32 : i < KERNEL_SIZE := List.mem_range.mp hi
    constructor
    · exact normalize_scale_z_nonneg _ _ (hpos i) (hok i).2.2.1 (kernelScale_nonneg i)
    · show ((rng i).normalize.scale (kernelScale i)).norm ≤ 1
      rw [normalize_scale_norm _ _ (hpos i) (kernelScale_nonneg i)]
      exact kernelScale_le_one hi32.le
  · intro i
    exact normalize_scale_norm _ _ (hpos i) (kernelScale_nonneg i)

/-- Witness for C1 at the concrete stream of unit-z triples. -/
theorem ssao_kernel_unit_hemisphere_witness :
    (∀ i, RngTripleOk (rngTriplesHalfZ i)) ∧
    (∀ i, f32Epsilon < (rngTriplesHalfZ i).norm) ∧
    (ssaoKernel rngTriplesHalfZ).length = KERNEL_SIZE := by
  have h1 : ∀ i, RngTripleOk (rngTriplesHalfZ i) := by
    intro i
    unfold rngTriplesHalfZ RngTripleOk
    norm_num
  have h2 : ∀ i, f32Epsilon < (rngTriplesHalfZ i).norm := by
    intro i
    show f32Epsilon < Vector3.norm ⟨0, 0, 0.5⟩
    have hn : Vector3.norm ⟨0, 0, 0.5⟩ = 0.5 := by
      unfold Vector3.norm
      have hq : (0 : ℝ) ^ 2 + 0 ^ 2 + (0.5 : ℝ) ^ 2 = (0.5 : ℝ) ^ 2 := by norm_num
      show Real.sqrt ((0 : ℝ) ^ 2 + 0 ^ 2 + (0.5 : ℝ) ^ 2) = 0.5
      rw [hq, Real.sqrt_sq (by norm_num)]
    rw [hn]
    unfold f32Epsilon
    norm_num
  exact ⟨h1, h2, (ssao_kernel_unit_hemisphere rngTriplesHalfZ h1 h2).1⟩

/-- C2: the SSAO pass targets half the frame resolution on both axes, clamped below to 1x1:
the target dimensions are never zero, a 64x64 frame yields a 32x32 target, a 0x0 frame yields
1x1; construction succeeds on every frame size against an always-succeeding backend, and on
success the stored dimensions and the occlusion target texture carry exactly the clamped
half resolution. -/
theorem ssao_half_resolution_clamped :
    (∀ fw, 1 ≤ ssaoTargetWidth fw ∧ (2 ≤ fw → ssaoTargetWidth fw = fw / 2)) ∧
    (∀ fh, 1 ≤ ssaoTargetHeight fh ∧ (2 ≤ fh → ssaoTargetHeight fh = fh / 2)) ∧
    ssaoTargetWidth 64 = 32 ∧ ssaoTargetHeight 64 = 32 ∧
    ssaoTargetWidth 0 = 1 ∧ ssaoTargetHeight 0 = 1 ∧
    (∀ fw fh rT rB,
      (ScreenSpaceAmbientOcclusionRenderer.new modelServer fw fh rT rB).isOk = true) ∧
    (∀ server fw fh rT rB st,
      CreatesRequestedTextures server → CreatesRequestedFrameBuffers server →
      ScreenSpaceAmbientOcclusionRenderer.new server fw fh rT rB = .ok st →
      st.width = (ssaoTargetWidth fw : Int) ∧ st.height = (ssaoTargetHeight fh : Int) ∧
      1 ≤ st.width ∧ 1 ≤ st.height ∧
      st.raw_ao_map.kind = .Rectangle (ssaoTargetWidth fw) (ssaoTargetHeight fh) ∧
      1 ≤ ssaoTargetWidth fw ∧ 1 ≤ ssaoTargetHeight fh) := by
  refine ⟨?_, ?_, rfl, rfl, rfl, rfl, fun fw fh rT rB => rfl, ?_⟩
  · intro fw
    refine ⟨Nat.le_max_right _ _, fun h2 => Nat.max_eq_left ?_⟩
    omega
  · intro fh
    refine ⟨Nat.le_max_right _ _, fun h2 => Nat.max_eq_left ?_⟩
    omega
  · intro server fw fh rT rB st htex hfbs h
    obtain ⟨occ, nt, hocc, hbuf, hblur, hshader, hfb, hquad, hnt, hnoise, hw, hh, hker, hrad⟩ :=
      ssao_new_ok server fw fh rT rB st h
    have hwpos : 1 ≤ ssaoTargetWidth fw := Nat.le_max_right _ _
    have hhpos : 1 ≤ ssaoTargetHeight fh := Nat.le_max_right _ _
    have hattach := hfbs none [⟨.Color, occ⟩] st.framebuffer hfb
    have hkind := (htex _ _ _ _ _ _ _ hocc).1
    refine ⟨hw, hh, ?_, ?_, ?_, hwpos, hhpos⟩
    · rw [hw]; exact_mod_cast hwpos
    · rw [hh]; exact_mod_cast hhpos
    · show st.framebuffer.firstColorTexture.kind = _
      unfold FrameBuffer.firstColorTexture
      rw [hattach.1]
      exact hkind

/-- Witness for C2 at the model server and a 64x64 frame. -/
theorem ssao_half_resolution_clamped_witness :
    CreatesRequestedTextures modelServer ∧ CreatesRequestedFrameBuffers modelServer ∧
    ScreenSpaceAmbientOcclusionRenderer.new modelServer 64 64 rngTriplesHalfZ rngBytesZero
      = .ok modelSsaoRenderer ∧
    modelSsaoRenderer.width = (32 : Int) ∧
    modelSsaoRenderer.raw_ao_map.kind = .Rectangle 32 32 := by
  have h := ssao_half_resolution_clamped.2.2.2.2.2.2.2 modelServer 64 64 rngTriplesHalfZ
    rngBytesZero modelSsaoRenderer modelServer_textures modelServer_framebuffers
    modelSsao_new_eq
  exact ⟨modelServer_textures, modelServer_framebuffers, modelSsao_new_eq, h.1, h.2.2.2.2.1⟩

/-- C5: `set_radius` stores the absolute value of its input, so the stored radius is always
nonnegative; in particular `set_radius(-2.0)` yields an effective radius of `2.0`, and the
radius stored by construction (0.5) is nonnegative as well. -/
theorem ssao_set_radius_abs :
    (∀ (st : ScreenSpaceAmbientOcclusionRenderer) (r : F32),
      (st.set_radius r).radius = |r| ∧ 0 ≤ (st.set_radius r).radius) ∧
    (∀ st : ScreenSpaceAmbientOcclusionRenderer, (st.set_radius (-2)).radius = 2) ∧
    (∀ server fw fh rT rB st,
      ScreenSpaceAmbientOcclusionRenderer.new server fw fh rT rB = .ok st →
      0 ≤ st.radius) := by
  refine ⟨fun st r => ⟨rfl, ?_⟩, fun st => ?_, fun server fw fh rT rB st h => ?_⟩
  · show (0 : F32) ≤ |r|
    exact abs_nonneg r
  · show |(-2 : F32)| = 2
    norm_num
  · obtain ⟨occ, nt, hocc, hbuf, hblur, hshader, hfb, hquad, hnt, hnoise, hw, hh, hker, hrad⟩ :=
      ssao_new_ok server fw fh rT rB st h
    rw [hrad]
    norm_num

/-- Witness for C5 at the model renderer. -/
theorem ssao_set_radius_abs_witness :
    ScreenSpaceAmbientOcclusionRenderer.new modelServer 64 64 rngTriplesHalfZ rngBytesZero
      = .ok modelSsaoRenderer ∧
    0 ≤ modelSsaoRenderer.radius ∧
    (modelSsaoRenderer.set_radius (-2)).radius = 2 :=
  ⟨modelSsao_new_eq,
   ssao_set_radius_abs.2.2 modelServer 64 64 rngTriplesHalfZ rngBytesZero modelSsaoRenderer
     modelSsao_new_eq,
   ssao_set_radius_abs.2.1 modelSsaoRenderer⟩

/-- C3: construction of a shader wrapper or of the SSAO pass is atomic with respect to errors:
on success every stored uniform location, block index and backend resource was resolved or
created by a successful backend call, and if any step fails — program compilation, any named
uniform or block lookup, or any texture/buffer/framebuffer/geometry creation — the constructor
returns exactly that step's error and yields no object. -/
theorem construction_error_atomicity :
    (∀ server sh, PointLightShader.new server = .ok sh →
      server.create_program "PointLightShader" deferredPointLightVs deferredPointLightFs
          = .ok sh.program ∧
      server.uniform_location sh.program "depthTexture" = .ok sh.depth_sampler ∧
      server.uniform_location sh.program "colorTexture" = .ok sh.color_sampler ∧
      server.uniform_location sh.program "normalTexture" = .ok sh.normal_sampler ∧
      server.uniform_location sh.program "materialTexture" = .ok sh.material_sampler ∧
      server.uniform_location sh.program "pointShadowTexture" = .ok sh.point_shadow_texture ∧
      server.uniform_block_index sh.program "Uniforms" = .ok sh.uniform_buffer_binding) ∧
    (∀ server,
      (∀ e, server.create_program "PointLightShader" deferredPointLightVs deferredPointLightFs
          = .error e →
        PointLightShader.new server = .error e) ∧
      (∀ p e, server.create_program "PointLightShader" deferredPointLightVs deferredPointLightFs
          = .ok p →
        server.uniform_location p "depthTexture" = .error e →
        PointLightShader.new server = .error e) ∧
      (∀ p l1 e, server.create_program "PointLightShader" deferredPointLightVs
          deferredPointLightFs = .ok p →
        server.uniform_location p "depthTexture" = .ok l1 →
        server.uniform_location p "colorTexture" = .error e →
        PointLightShader.new server = .error e) ∧
      (∀ p l1 l2 e, server.create_program "PointLightShader" deferredPointLightVs
          deferredPointLightFs = .ok p →
        server.uniform_location p "depthTexture" = .ok l1 →
        server.uniform_location p "colorTexture" = .ok l2 →
        server.uniform_location p "normalTexture" = .error e →
        PointLightShader.new server = .error e) ∧
      (∀ p l1 l2 l3 e, server.create_program "PointLightShader" deferredPointLightVs
          deferredPointLightFs = .ok p →
        server.uniform_location p "depthTexture" = .ok l1 →
        server.uniform_location p "colorTexture" = .ok l2 →
        server.uniform_location p "normalTexture" = .ok l3 →
        server.uniform_location p "materialTexture" = .error e →
        PointLightShader.new server = .error e) ∧
      (∀ p l1 l2 l3 l4 e, server.create_program "PointLightShader" deferredPointLightVs
          deferredPointLightFs = .ok p →
        server.uniform_location p "depthTexture" = .ok l1 →
        server.uniform_location p "colorTexture" = .ok l2 →
        server.uniform_location p "normalTexture" = .ok l3 →
        server.uniform_location p "materialTexture" = .ok l4 →
        server.uniform_location p "pointShadowTexture" = .error e →
        PointLightShader.new server = .error e) ∧
      (∀ p l1 l2 l3 l4 l5 e, server.create_program "PointLightShader" deferredPointLightVs
          deferredPointLightFs = .ok p →
        server.uniform_location p "depthTexture" = .ok l1 →
        server.uniform_location p "colorTexture" = .ok l2 →
        server.uniform_location p "normalTexture" = .ok l3 →
        server.uniform_location p "materialTexture" = .ok l4 →
        server.uniform_location p "pointShadowTexture" = .ok l5 →
        server.uniform_block_index p "Uniforms" = .error e →
        PointLightShader.new server = .error e)) ∧
    (∀ server sh, Ssao.Shader.new server = .ok sh →
      server.create_program "SsaoShader" ssaoVs ssaoFs = .ok sh.program ∧
      server.uniform_location sh.program "depthSampler" = .ok sh.depth_sampler ∧
      server.uniform_location sh.program "normalSampler" = .ok sh.normal_sampler ∧
      server.uniform_location sh.program "noiseSampler" = .ok sh.noise_sampler ∧
      server.uniform_block_index sh.program "Uniforms" = .ok sh.uniform_block_index) ∧
    (∀ server e, server.create_program "SsaoShader" ssaoVs ssaoFs = .error e →
      Ssao.Shader.new server = .error e) ∧
    (∀ server fw fh rT rB st,
      ScreenSpaceAmbientOcclusionRenderer.new server fw fh rT rB = .ok st →
      ∃ occlusion noiseTexture : GpuTexture,
        server.create_texture (.Rectangle (ssaoTargetWidth fw) (ssaoTargetHeight fh)) .R32F
            .Nearest .Nearest 1 none = .ok occlusion ∧
        server.create_buffer 1024 .Uniform .StreamCopy = .ok st.uniform_buffer ∧
        server.make_blur (ssaoTargetWidth fw) (ssaoTargetHeight fh) = .ok st.blur ∧
        Ssao.Shader.new server = .ok st.shader ∧
        server.create_frame_buffer none [⟨.Color, occlusion⟩] = .ok st.framebuffer ∧
        server.make_quad .StaticDraw = .ok st.quad ∧
        server.create_texture (.Rectangle NOISE_SIZE NOISE_SIZE) .RGB8 .Nearest .Nearest 1
            (some (Ssao.noisePixels rB)) = .ok noiseTexture ∧
        st.noise = (noiseTexture.set_wrap .S .Repeat).set_wrap .T .Repeat) ∧
    (∀ server fw fh rT rB,
      (∀ e, server.create_texture (.Rectangle (ssaoTargetWidth fw) (ssaoTargetHeight fh)) .R32F
          .Nearest .Nearest 1 none = .error e →
        ScreenSpaceAmbientOcclusionRenderer.new server fw fh rT rB = .error e) ∧
      (∀ occ e, server.create_texture (.Rectangle (ssaoTargetWidth fw) (ssaoTargetHeight fh))
          .R32F .Nearest .Nearest 1 none = .ok occ →
        server.create_buffer 1024 .Uniform .StreamCopy = .error e →
        ScreenSpaceAmbientOcclusionRenderer.new server fw fh rT rB = .error e) ∧
      (∀ occ b e, server.create_texture (.Rectangle (ssaoTargetWidth fw) (ssaoTargetHeight fh))
          .R32F .Nearest .Nearest 1 none = .ok occ →
        server.create_buffer 1024 .Uniform .StreamCopy = .ok b →
        server.make_blur (ssaoTargetWidth fw) (ssaoTargetHeight fh) = .error e →
        ScreenSpaceAmbientOcclusionRenderer.new server fw fh rT rB = .error e) ∧
      (∀ occ b bl e, server.create_texture
          (.Rectangle (ssaoTargetWidth fw) (ssaoTargetHeight fh)) .R32F .Nearest .Nearest 1
          none = .ok occ →
        server.create_buffer 1024 .Uniform .StreamCopy = .ok b →
        server.make_blur (ssaoTargetWidth fw) (ssaoTargetHeight fh) = .ok bl →
        Ssao.Shader.new server = .error e →
        ScreenSpaceAmbientOcclusionRenderer.new server fw fh rT rB = .error e) ∧
      (∀ occ b bl sh e, server.create_texture
          (.Rectangle (ssaoTargetWidth fw) (ssaoTargetHeight fh)) .R32F .Nearest .Nearest 1
          none = .ok occ →
        server.create_buffer 1024 .Uniform .StreamCopy = .ok b →
        server.make_blur (ssaoTargetWidth fw) (ssaoTargetHeight fh) = .ok bl →
        Ssao.Shader.new server = .ok sh →
        server.create_frame_buffer none [⟨.Color, occ⟩] = .error e →
        ScreenSpaceAmbientOcclusionRenderer.new server fw fh rT rB = .error e) ∧
      (∀ occ b bl sh fb e, server.create_texture
          (.Rectangle (ssaoTargetWidth fw) (ssaoTargetHeight fh)) .R32F .Nearest .Nearest 1
          none = .ok occ →
        server.create_buffer 1024 .Uniform .StreamCopy = .ok b →
        server.make_blur (ssaoTargetWidth fw) (ssaoTargetHeight fh) = .ok bl →
        Ssao.Shader.new server = .ok sh →
        server.create_frame_buffer none [⟨.Color, occ⟩] = .ok fb →
        server.make_quad .StaticDraw = .error e →
        ScreenSpaceAmbientOcclusionRenderer.new server fw fh rT rB = .error e) ∧
      (∀ occ b bl sh fb q e, server.create_texture
          (.Rectangle (ssaoTargetWidth fw) (ssaoTargetHeight fh)) .R32F .Nearest .Nearest 1
          none = .ok occ →
        server.create_buffer 1024 .Uniform .StreamCopy = .ok b →
        server.make_blur (ssaoTargetWidth fw) (ssaoTargetHeight fh) = .ok bl →
        Ssao.Shader.new server = .ok sh →
        server.create_frame_buffer none [⟨.Color, occ⟩] = .ok fb →
        server.make_quad .StaticDraw = .ok q →
        server.create_texture (.Rectangle NOISE_SIZE NOISE_SIZE) .RGB8 .Nearest .Nearest 1
            (some (Ssao.noisePixels rB)) = .error e →
        ScreenSpaceAmbientOcclusionRenderer.new server fw fh rT rB = .error e)) := by
  refine ⟨pointLightShader_new_ok, ?_, ssaoShader_new_ok, ?_, ?_, ?_⟩
  · intro server
    refine ⟨?_, ?_, ?_, ?_, ?_, ?_, ?_⟩
    · intro e h1
      unfold PointLightShader.new
      simp only [h1, except_bind_error]
    · intro p e h1 h2
      unfold PointLightShader.new
      simp only [h1, h2, except_bind_ok, except_bind_error]
    · intro p l1 e h1 h2 h3
      unfold PointLightShader.new
      simp only [h1, h2, h3, except_bind_ok, except_bind_error]
    · intro p l1 l2 e h1 h2 h3 h4
      unfold PointLightShader.new
      simp only [h1, h2, h3, h4, except_bind_ok, except_bind_error]
    · intro p l1 l2 l3 e h1 h2 h3 h4 h5
      unfold PointLightShader.new
      simp only [h1, h2, h3, h4, h5, except_bind_ok, except_bind_error]
    · intro p l1 l2 l3 l4 e h1 h2 h3 h4 h5 h6
      unfold PointLightShader.new
      simp only [h1, h2, h3, h4, h5, h6, except_bind_ok, except_bind_error]
    · intro p l1 l2 l3 l4 l5 e h1 h2 h3 h4 h5 h6 h7
      unfold PointLightShader.new
      simp only [h1, h2, h3, h4, h5, h6, h7, except_bind_ok, except_bind_error]
  · intro server e h1
    unfold Ssao.Shader.new
    simp only [h1, except_bind_error]
  · intro server fw fh rT rB st h
    obtain ⟨occ, nt, hocc, hbuf, hblur, hshader, hfb, hquad, hnt, hnoise, hw, hh, hker, hrad⟩ :=
      ssao_new_ok server fw fh rT rB st h
    exact ⟨occ, nt, hocc, hbuf, hblur, hshader, hfb, hquad, hnt, hnoise⟩
  · intro server fw fh rT rB
    refine ⟨?_, ?_, ?_, ?_, ?_, ?_, ?_⟩
    · intro e h1
      unfold ScreenSpaceAmbientOcclusionRenderer.new
      simp only [h1, except_bind_error]
    · intro occ e h1 h2
      unfold ScreenSpaceAmbientOcclusionRenderer.new
      simp only [h1, h2, except_bind_ok, except_bind_error]
    · intro occ b e h1 h2 h3
      unfold ScreenSpaceAmbientOcclusionRenderer.new
      simp only [h1, h2, h3, except_bind_ok, except_bind_error]
    · intro occ b bl e h1 h2 h3 h4
      unfold ScreenSpaceAmbientOcclusionRenderer.new
      simp only [h1, h2, h3, h4, except_bind_ok, except_bind_error]
    · intro occ b bl sh e h1 h2 h3 h4 h5
      unfold ScreenSpaceAmbientOcclusionRenderer.new
      simp only [h1, h2, h3, h4, h5, except_bind_ok, except_bind_error]
    · intro occ b bl sh fb e h1 h2 h3 h4 h5 h6
      unfold ScreenSpaceAmbientOcclusionRenderer.new
      simp only [h1, h2, h3, h4, h5, h6, except_bind_ok, except_bind_error]
    · intro occ b bl sh fb q e h1 h2 h3 h4 h5 h6 h7
      unfold ScreenSpaceAmbientOcclusionRenderer.new
      simp only [h1, h2, h3, h4, h5, h6, h7, except_bind_ok, except_bind_error]

/-- Witness for C3: successful construction at the model server, and error propagation at
a backend whose program compilation fails. -/
theorem construction_error_atomicity_witness :
    PointLightShader.new modelServer = .ok modelPointLightShader ∧
    modelServer.create_program "PointLightShader" deferredPointLightVs deferredPointLightFs
      = .ok modelPointLightShader.program ∧
    failingProgramServer.create_program "PointLightShader" deferredPointLightVs
      deferredPointLightFs = .error ⟨"compile error"⟩ ∧
    PointLightShader.new failingProgramServer = .error ⟨"compile error"⟩ :=
  ⟨rfl, (construction_error_atomicity.1 modelServer modelPointLightShader rfl).1, rfl,
   (construction_error_atomicity.2.1 failingProgramServer).1 ⟨"compile error"⟩ rfl⟩

/-- C4: each SSAO render invocation performs in order a clear of the occlusion target, an
upload of the per-frame uniforms, one full-screen quad draw sampling the depth, normal and
noise textures, and finally the delegation to the blur sub-pass on the raw occlusion map;
`ao_map` returns the blur result texture while `raw_ao_map` returns the pass's own color
attachment, and a buffer-write or draw error is propagated as the result of `render`. -/
theorem ssao_render_sequence :
    (∀ (st : ScreenSpaceAmbientOcclusionRenderer) (gb : GBuffer) (pm : Matrix4) (vm : Matrix3)
        (d : DrawCallStatistics),
      st.render gb pm vm (.ok ()) (.ok d) (.ok ()) =
        ([.clear ⟨0, 0, st.width, st.height⟩ (some (Color.from_rgba 0 0 0 0)) (some 1.0) none,
          .bufferWrite st.uniform_buffer (ssaoUniformBuffer st pm vm).finish,
          .draw ⟨0, 0, st.width, st.height⟩ ssaoDrawParameters
            [.texture gb.depth st.shader.depth_sampler,
             .texture gb.normal_texture st.shader.normal_sampler,
             .texture st.noise st.shader.noise_sampler,
             .buffer st.uniform_buffer st.shader.uniform_block_index] .Full,
          .blurPass st.raw_ao_map],
         .ok (RenderPassStatistics.addDraw {} d))) ∧
    (∀ st : ScreenSpaceAmbientOcclusionRenderer,
      st.ao_map = st.blur.result ∧ st.raw_ao_map = st.framebuffer.firstColorTexture) ∧
    (∀ st gb pm vm e dres bres,
      (ScreenSpaceAmbientOcclusionRenderer.render st gb pm vm (.error e) dres bres).2
          = .error e ∧
      (ScreenSpaceAmbientOcclusionRenderer.render st gb pm vm (.error e) dres bres).1 =
        [.clear ⟨0, 0, st.width, st.height⟩ (some (Color.from_rgba 0 0 0 0)) (some 1.0) none]) ∧
    (∀ st gb pm vm e bres,
      (ScreenSpaceAmbientOcclusionRenderer.render st gb pm vm (.ok ()) (.error e) bres).2
          = .error e) ∧
    (∀ st gb pm vm e d,
      (ScreenSpaceAmbientOcclusionRenderer.render st gb pm vm (.ok ()) (.ok d) (.error e)).2
          = .error e) :=
  ⟨fun _ _ _ _ _ => rfl, fun _ => ⟨rfl, rfl⟩, fun _ _ _ _ _ _ _ => ⟨rfl, rfl⟩,
   fun _ _ _ _ _ _ => rfl, fun _ _ _ _ _ _ => rfl⟩

/-- C6: the per-frame uniforms are serialized into a 1024-byte fixed-capacity staging buffer
by the ordered push sequence — frame matrix, inverse projection, projection, kernel sample
array, noise scale, view matrix, radius — and the finished contents are written to the
backend uniform buffer object before the draw is issued. -/
theorem ssao_uniform_write_order :
    (∀ (st : ScreenSpaceAmbientOcclusionRenderer) (pm : Matrix4) (vm : Matrix3),
      (ssaoUniformBuffer st pm vm).capacity = 1024 ∧
      (ssaoUniformBuffer st pm vm).finish =
        [.mat4 (frameMatrix ((st.width : Int) : F32) ((st.height : Int) : F32)),
         .mat4 (.inverseOrDefault pm),
         .mat4 pm,
         .vec3Array st.kernel,
         .vec2 (((st.width : Int) : F32) / (NOISE_SIZE : F32))
           (((st.height : Int) : F32) / (NOISE_SIZE : F32)),
         .mat3 vm,
         .float st.radius]) ∧
    (∀ (st : ScreenSpaceAmbientOcclusionRenderer) (gb : GBuffer) (pm : Matrix4) (vm : Matrix3)
        (d : DrawCallStatistics),
      (ScreenSpaceAmbientOcclusionRenderer.render st gb pm vm (.ok ()) (.ok d) (.ok ())).1 =
        [.clear ⟨0, 0, st.width, st.height⟩ (some (Color.from_rgba 0 0 0 0)) (some 1.0) none,
         .bufferWrite st.uniform_buffer (ssaoUniformBuffer st pm vm).finish,
         .draw ⟨0, 0, st.width, st.height⟩ ssaoDrawParameters
           [.texture gb.depth st.shader.depth_sampler,
            .texture gb.normal_texture st.shader.normal_sampler,
            .texture st.noise st.shader.noise_sampler,
            .buffer st.uniform_buffer st.shader.uniform_block_index] .Full,
         .blurPass st.raw_ao_map]) :=
  ⟨fun _ _ _ => ⟨rfl, rfl⟩, fun _ _ _ _ _ => rfl⟩

/-- C7: `clear(viewport, color, depth, stencil)` clears a channel exactly when its optional
value is present, restricted to the viewport; in particular a clear with no color, depth 1.0
and no stencil leaves the color and stencil contents unmodified everywhere and sets every
depth value inside the viewport to 1.0. -/
theorem framebuffer_clear_channels :
    (∀ (fb : FrameBufferContents) (vp : Rect) (p : Pos) (c : Option Color) (d : Option F32)
        (s : Option Int),
      (c = none → (fb.clear vp c d s).colorAt p = fb.colorAt p) ∧
      (d = none → (fb.clear vp c d s).depthAt p = fb.depthAt p) ∧
      (s = none → (fb.clear vp c d s).stencilAt p = fb.stencilAt p) ∧
      (∀ cv, c = some cv → vp.contains p = true → (fb.clear vp c d s).colorAt p = cv) ∧
      (∀ dv, d = some dv → vp.contains p = true → (fb.clear vp c d s).depthAt p = dv) ∧
      (∀ sv, s = some sv → vp.contains p = true → (fb.clear vp c d s).stencilAt p = sv) ∧
      (vp.contains p = false →
        (fb.clear vp c d s).colorAt p = fb.colorAt p ∧
        (fb.clear vp c d s).depthAt p = fb.depthAt p ∧
        (fb.clear vp c d s).stencilAt p = fb.stencilAt p)) ∧
    (∀ (fb : FrameBufferContents) (vp : Rect) (p : Pos),
      (fb.clear vp none (some 1.0) none).colorAt p = fb.colorAt p ∧
      (fb.clear vp none (some 1.0) none).stencilAt p = fb.stencilAt p ∧
      (vp.contains p = true → (fb.clear vp none (some 1.0) none).depthAt p = 1.0)) := by
  constructor
  · intro fb vp p c d s
    refine ⟨?_, ?_, ?_, ?_, ?_, ?_, ?_⟩
    · rintro rfl; rfl
    · rintro rfl; rfl
    · rintro rfl; rfl
    · rintro cv rfl hc
      simp [FrameBufferContents.clear, clearChannel, hc]
    · rintro dv rfl hc
      simp [FrameBufferContents.clear, clearChannel, hc]
    · rintro sv rfl hc
      simp [FrameBufferContents.clear, clearChannel, hc]
    · intro hc
      refine ⟨?_, ?_, ?_⟩
      · cases c with
        | none => rfl
        | some cv => simp [FrameBufferContents.clear, clearChannel, hc]
      · cases d with
        | none => rfl
        | some dv => simp [FrameBufferContents.clear, clearChannel, hc]
      · cases s with
        | none => rfl
        | some sv => simp [FrameBufferContents.clear, clearChannel, hc]
  · intro fb vp p
    refine ⟨rfl, rfl, fun hc => ?_⟩
    simp [FrameBufferContents.clear, clearChannel, hc]

/-- Witness for C7 at a concrete two-by-two viewport and constant contents. -/
theorem framebuffer_clear_channels_witness :
    Rect.contains ⟨0, 0, 2, 2⟩ ⟨0, 0⟩ = true ∧
    (FrameBufferContents.clear
      ⟨fun _ => Color.from_rgba 9 9 9 9, fun _ => 0, fun _ => 7⟩
      ⟨0, 0, 2, 2⟩ none (some 1.0) none).depthAt ⟨0, 0⟩ = 1.0 ∧
    (FrameBufferContents.clear
      ⟨fun _ => Color.from_rgba 9 9 9 9, fun _ => 0, fun _ => 7⟩
      ⟨0, 0, 2, 2⟩ none (some 1.0) none).colorAt ⟨0, 0⟩ = Color.from_rgba 9 9 9 9 := by
  have hc : Rect.contains ⟨0, 0, 2, 2⟩ ⟨0, 0⟩ = true := by decide
  refine ⟨hc, ?_, ?_⟩
  · exact (framebuffer_clear_channels.2
      ⟨fun _ => Color.from_rgba 9 9 9 9, fun _ => 0, fun _ => 7⟩ ⟨0, 0, 2, 2⟩ ⟨0, 0⟩).2.2 hc
  · exact (framebuffer_clear_channels.2
      ⟨fun _ => Color.from_rgba 9 9 9 9, fun _ => 0, fun _ => 7⟩ ⟨0, 0, 2, 2⟩ ⟨0, 0⟩).1

/-- C8: a framebuffer holds its depth-class attachment in a single optional slot, so a
framebuffer created from color-kind attachments plus the optional depth argument has at most
one depth-class attachment; and no operation of the framebuffer trait (clear, cubemap-face
selection, draw, blit) adds, removes or reorders the attachment lists. -/
theorem framebuffer_attachments_stable :
    (∀ (d : Option Attachment) (cs : List Attachment),
      (∀ a ∈ cs, a.kind = .Color) →
      ((FrameBuffer.mk cs d).attachments.countP Attachment.depthClass) ≤ 1) ∧
    (∀ (ops : List FbOp) (s : FrameBufferState),
      (ops.foldl FrameBufferState.apply s).fb = s.fb) := by
  constructor
  · intro d cs h
    unfold FrameBuffer.attachments
    rw [List.countP_append]
    have h0 : cs.countP Attachment.depthClass = 0 := by
      rw [List.countP_eq_zero]
      intro a ha
      have hk := h a ha
      simp [Attachment.depthClass, hk]
    rw [h0]
    have h1 : (Option.toList d).countP Attachment.depthClass ≤ (Option.toList d).length :=
      List.countP_le_length _
    have h2 : (Option.toList d).length ≤ 1 := by cases d <;> simp
    show 0 + (Option.toList d).countP Attachment.depthClass ≤ 1
    omega
  · intro ops
    induction ops with
    | nil => intro s; rfl
    | cons op rest ih =>
      intro s
      rw [List.foldl_cons, ih]
      cases op <;> rfl

/-- Witness for C8 at a one-color-plus-depth framebuffer and a face-selection operation. -/
theorem framebuffer_attachments_stable_witness :
    (∀ a ∈ [Attachment.mk .Color default], a.kind = .Color) ∧
    ((FrameBuffer.mk [⟨.Color, default⟩] (some ⟨.Depth, default⟩)).attachments.countP
      Attachment.depthClass) ≤ 1 ∧
    ([FbOp.setCubemapFace 0 .PositiveX].foldl FrameBufferState.apply
      ⟨⟨[⟨.Color, default⟩], some ⟨.Depth, default⟩⟩,
       ⟨fun _ => Color.from_rgba 0 0 0 0, fun _ => 0, fun _ => 0⟩, fun _ => none⟩).fb
      = ⟨[⟨.Color, default⟩], some ⟨.Depth, default⟩⟩ := by
  have h1 : ∀ a ∈ [Attachment.mk .Color default], a.kind = .Color := by
    intro a ha
    rw [List.mem_singleton] at ha
    subst ha
    rfl
  exact ⟨h1, framebuffer_attachments_stable.1 (some ⟨.Depth, default⟩) [⟨.Color, default⟩] h1,
    framebuffer_attachments_stable.2 [FbOp.setCubemapFace 0 .PositiveX] _⟩

lemma noisePixels_length (rB : Nat → Nat) :
    (Ssao.noisePixels rB).length = Ssao.RGB_PIXEL_SIZE * NOISE_SIZE * NOISE_SIZE := rfl

lemma noisePixels_get (rB : Nat → Nat) (i : Nat) (hi : i < NOISE_SIZE * NOISE_SIZE) :
    (Ssao.noisePixels rB)[3 * i]? = some (Ssao.genRangeByte (rB (2 * i))) ∧
    (Ssao.noisePixels rB)[3 * i + 1]? = some (Ssao.genRangeByte (rB (2 * i + 1))) ∧
    (Ssao.noisePixels rB)[3 * i + 2]? = some 0 := by
  have h16 : i < 16 := by simpa [NOISE_SIZE] using hi
  interval_cases i <;> exact ⟨rfl, rfl, rfl⟩

/-- C9: the noise texture of a successfully constructed SSAO pass is a
`NOISE_SIZE x NOISE_SIZE` (4x4) RGB8 texture with nearest min/mag filtering and repeat
wrap-around addressing on both S and T; its pixel data gives every pixel a zero blue channel
and red/green bytes strictly below 255. -/
theorem ssao_noise_texture_invariant (server : GraphicsServer)
    (htex : CreatesRequestedTextures server) (fw fh : Nat) (rT : Nat → Vector3)
    (rB : Nat → Nat) (st : ScreenSpaceAmbientOcclusionRenderer)
    (h : ScreenSpaceAmbientOcclusionRenderer.new server fw fh rT rB = .ok st) :
    st.noise.kind = .Rectangle NOISE_SIZE NOISE_SIZE ∧
    st.noise.pixelKind = .RGB8 ∧
    st.noise.minFilter = .Nearest ∧
    st.noise.magFilter = .Nearest ∧
    st.noise.wrapS = .Repeat ∧
    st.noise.wrapT = .Repeat ∧
    st.noise.data = some (Ssao.noisePixels rB) ∧
    (Ssao.noisePixels rB).length = Ssao.RGB_PIXEL_SIZE * NOISE_SIZE * NOISE_SIZE ∧
    (∀ i, i < NOISE_SIZE * NOISE_SIZE →
      (Ssao.noisePixels rB)[3 * i + 2]? = some 0 ∧
      (Ssao.noisePixels rB)[3 * i]? = some (Ssao.genRangeByte (rB (2 * i))) ∧
      (Ssao.noisePixels rB)[3 * i + 1]? = some (Ssao.genRangeByte (rB (2 * i + 1)))) ∧
    (∀ raw, Ssao.genRangeByte raw < 255) := by
  obtain ⟨occ, nt, hocc, hbuf, hblur, hshader, hfb, hquad, hnt, hnoise, hw, hh, hker, hrad⟩ :=
    ssao_new_ok server fw fh rT rB st h
  obtain ⟨hk, hp, hmn, hmg, hmc, hd⟩ := htex _ _ _ _ _ _ _ hnt
  rw [hnoise]
  refine ⟨?_, ?_, ?_, ?_, ?_, ?_, ?_, noisePixels_length rB, ?_, genRangeByte_lt⟩
  · simpa [GpuTexture.set_wrap] using hk
  · simpa [GpuTexture.set_wrap] using hp
  · simpa [GpuTexture.set_wrap] using hmn
  · simpa [GpuTexture.set_wrap] using hmg
  · simp [GpuTexture.set_wrap]
  · simp [GpuTexture.set_wrap]
  · simpa [GpuTexture.set_wrap] using hd
  · intro i hi
    obtain ⟨ha, hb, hc⟩ := noisePixels_get rB i hi
    exact ⟨hc, ha, hb⟩

/-- Witness for C9 at the model renderer. -/
theorem ssao_noise_texture_invariant_witness :
    CreatesRequestedTextures modelServer ∧
    ScreenSpaceAmbientOcclusionRenderer.new modelServer 64 64 rngTriplesHalfZ rngBytesZero
      = .ok modelSsaoRenderer ∧
    modelSsaoRenderer.noise.wrapS = .Repeat ∧
    modelSsaoRenderer.noise.kind = .Rectangle 4 4 := by
  have h := ssao_noise_texture_invariant modelServer modelServer_textures 64 64
    rngTriplesHalfZ rngBytesZero modelSsaoRenderer modelSsao_new_eq
  exact ⟨modelServer_textures, modelSsao_new_eq, h.2.2.2.2.1, h.1⟩

/-- C10: the single draw issued per SSAO render uses draw parameters with no face culling,
no stencil test, no depth test, no blending, no scissor box and depth writes disabled; the
success trace contains exactly one draw, at position two, carrying exactly these parameters,
and a draw with these parameters leaves the depth and stencil planes of the framebuffer
contents untouched. -/
theorem ssao_draw_fully_specified :
    ssaoDrawParameters.depth_write = false ∧
    ssaoDrawParameters.cull_face = none ∧
    ssaoDrawParameters.stencil_test = none ∧
    ssaoDrawParameters.depth_test = none ∧
    ssaoDrawParameters.blend = none ∧
    ssaoDrawParameters.scissor_box = none ∧
    (∀ (st : ScreenSpaceAmbientOcclusionRenderer) (gb : GBuffer) (pm : Matrix4) (vm : Matrix3)
        (d : DrawCallStatistics),
      ((ScreenSpaceAmbientOcclusionRenderer.render st gb pm vm (.ok ()) (.ok d)
          (.ok ())).1.countP RenderOp.isDraw) = 1 ∧
      ((ScreenSpaceAmbientOcclusionRenderer.render st gb pm vm (.ok ()) (.ok d)
          (.ok ())).1)[2]? =
        some (.draw ⟨0, 0, st.width, st.height⟩ ssaoDrawParameters
          [.texture gb.depth st.shader.depth_sampler,
           .texture gb.normal_texture st.shader.normal_sampler,
           .texture st.noise st.shader.noise_sampler,
           .buffer st.uniform_buffer st.shader.uniform_block_index] .Full)) ∧
    (∀ (fb : FrameBufferContents) (sc : Pos → Color) (sd : Pos → F32) (ss : Pos → Int),
      (fb.applyDraw ssaoDrawParameters sc sd ss).depthAt = fb.depthAt ∧
      (fb.applyDraw ssaoDrawParameters sc sd ss).stencilAt = fb.stencilAt) :=
  ⟨rfl, rfl, rfl, rfl, rfl, rfl, fun _ _ _ _ _ => ⟨rfl, rfl⟩, fun _ _ _ _ => ⟨rfl, rfl⟩⟩

end Fyrox
